import Mathlib

/-!
Verification of the AliceAi job-application automation tool.

This file gives a shallow embedding of the Python sources
(src/main.py, src/job_processor.py, src/gemini_api.py, src/logger.py)
and proves properties about the embedded functions.  Browser and
network interactions are modelled by environment records: each record
field states what the page or the language-model service would answer
at the corresponding interaction point of the code, and the embedded
control flow is translated line by line from the source.
-/

set_option maxRecDepth 65536

/- ===================== String primitives =====================
Python string operations used by the sources, modelled on the
character list underlying a Lean string. -/

/-- Characters removed by the Python str.strip() method. -/
def isPyWhitespace (c : Char) : Bool :=
  c = ' ' || c = '\t' || c = '\n' || c = '\r' || c = '\x0b' || c = '\x0c'

/-- Python str.strip(): drop whitespace from both ends. -/
def pyStrip (s : String) : String :=
  ⟨((s.data.dropWhile isPyWhitespace).reverse.dropWhile isPyWhitespace).reverse⟩

/-- Python str.lower() restricted to ASCII, which is all the sources use. -/
def pyLower (s : String) : String :=
  ⟨s.data.map Char.toLower⟩

/-- Whether the first list is an initial segment of the second. -/
def listIsPre : List Char → List Char → Bool
  | [], _ => true
  | _ :: _, [] => false
  | a :: as, b :: bs => a == b && listIsPre as bs

/-- Python str.startswith. -/
def strStartsWith (s pre : String) : Bool :=
  listIsPre pre.data s.data

/-- Substring search on character lists. -/
def listContainsSub (needle : List Char) : List Char → Bool
  | [] => listIsPre needle []
  | h :: t => listIsPre needle (h :: t) || listContainsSub needle t

/-- Python substring membership test (needle in hay). -/
def strContains (hay needle : String) : Bool :=
  listContainsSub needle.data hay.data

/-- Python int(str): optional sign and a nonempty digit run after stripping
whitespace; anything else raises ValueError, modelled as none.
(Pythons underscore digit separators are not modelled: no model reply
in this program uses them.) -/
def pyInt (s : String) : Option Int :=
  let t := (pyStrip s).data
  let signAndDigits : Int × List Char :=
    match t with
    | '-' :: rest => (-1, rest)
    | '+' :: rest => (1, rest)
    | l => (1, l)
  if signAndDigits.2 ≠ [] ∧ signAndDigits.2.all Char.isDigit then
    some (signAndDigits.1 *
      (signAndDigits.2.foldl (fun acc c => acc * 10 + (c.toNat - 48)) 0 : Nat))
  else none

/-- Python list indexing: a negative index counts from the end; an index
outside the range raises IndexError, modelled as none.  Returns the
effective nonnegative position. -/
def pyIdx (n : Nat) (i : Int) : Option Nat :=
  let j : Int := if i < 0 then i + n else i
  if 0 ≤ j ∧ j < (n : Int) then some j.toNat else none

/-- Truthiness of an optional string under Python: None and the empty
string are falsy. -/
def optTruthy : Option String → Bool
  | none => false
  | some s => s ≠ ""

/- ===================== Preference-match parsing =====================
src/job_processor.py, job_matches_preferences, lines 691-702: the raw
classifier response is parsed into (match_decision, match_reason). -/

/-- Embeds the response parsing of job_matches_preferences
(src/job_processor.py lines 691-702).  Every branch stores the raw
response as the reason. -/
def parseMatchResult (response : String) : Bool × String :=
  if strStartsWith (pyLower response) "yes" then (true, response)
  else if strContains (pyLower response) " yes " then (true, response)
  else (false, response)

/-- The boolean part of the parsed preference decision. -/
def parseMatchDecision (response : String) : Bool :=
  (parseMatchResult response).1

/- ===================== Configuration =====================
The relevant keys of customization.json with the hardcoded defaults the
sources supply via dict.get.  A structure field holds the value the
corresponding .get call returns, so a missing key is represented by the
default value. -/

/-- Fallback answers, src/job_processor.py get_default_answer
(lines 732-760) with the defaults of the .get calls. -/
structure DefaultAnswers where
  noticePeriod : String := "60 days"
  expectedSalary : String := "18 LPA"
  currentLocation : String := "Noida"
  reasonForJobChange : String := "Growth opportunities"
  preferredLocations : List String := ["Remote"]
  genericResponse : String := "Yes"

/-- The configuration keys the embedded functions read. -/
structure Config where
  jobPreferences : String := ""
  maxErrorCountPerJob : Nat := 2
  handleExternalRedirects : Bool := false
  defaultAnswers : DefaultAnswers := {}
  dobFormat : String := "06/12/2004"

/- ===================== Language-model client =====================
src/gemini_api.py, bard_flash_response (lines 128-183).  The hosted
API is modelled by an oracle mapping the attempt number to either the
returned text or the message of the exception the call raised. -/

/-- The per-error fallback of bard_flash_response (lines 177-180):
after the last retry, an error message mentioning multiple_choice or
options yields the text 1, anything else yields Yes. -/
def fallbackForError (msg : String) : String :=
  if strContains (pyLower msg) "multiple_choice" || strContains (pyLower msg) "options"
  then "1" else "Yes"

/-- The retry loop of bard_flash_response (lines 137-183).  The fuel
argument is the number of attempts still allowed (max_retries minus
retry_count); i numbers the attempts for the oracle and the second
component counts the calls actually made.  The fuel-zero branch is the
final return of the function, unreachable from fuel 3 because the last
failed attempt already returns the per-error fallback. -/
def bardLoop (oracle : Nat → Except String String) : Nat → Nat → Nat → String × Nat
  | _, calls, 0 => ("Yes", calls)
  | i, calls, fuel + 1 =>
    match oracle i with
    | Except.ok t => (t, calls + 1)
    | Except.error msg =>
      if fuel = 0 then (fallbackForError msg, calls + 1)
      else bardLoop oracle (i + 1) (calls + 1) fuel

/-- bard_flash_response with its model-call count.  An empty or
whitespace-only question returns Yes before any call (lines 133-135);
otherwise the retry loop runs with max_retries = 3.  The preference
branch and the chat branch both amount to one call of the hosted
service per attempt, which the oracle represents. -/
def bardRun (question : String) (oracle : Nat → Except String String) : String × Nat :=
  if pyStrip question = "" then ("Yes", 0)
  else bardLoop oracle 0 0 3

/-- The text bard_flash_response returns. -/
def bard_flash_response (question : String) (oracle : Nat → Except String String) : String :=
  (bardRun question oracle).1

/- ===================== Preference classification =====================
src/job_processor.py, job_matches_preferences (lines 658-715). -/

/-- The extracted job fields the classifier prompt embeds; none models
an absent dictionary key. -/
structure JobInfo where
  title : Option String := none
  company : Option String := none
  location : Option String := none
  experience : Option String := none
  description : Option String := none
  requirements : Option String := none

/-- The classifier prompt of job_matches_preferences (lines 666-685),
with absent fields rendered as Not specified by the .get defaults. -/
def buildPreferencePrompt (prefs title company location experience description requirements : String) : String :=
  "\n    My job preferences:\n    " ++ prefs ++
  "\n    \n    Job details:\n    Title: " ++ title ++
  "\n    Company: " ++ company ++
  "\n    Location: " ++ location ++
  "\n    Experience required: " ++ experience ++
  "\n    \n    Description:\n    " ++ description ++
  "\n    \n    Requirements:\n    " ++ requirements ++
  "\n    \n    Based on the above information, does this job match my preferences?\n" ++
  "    Please respond with \x27yes\x27 if it\x27s a good match, or \x27no\x27 if it\x27s not a good match.\n" ++
  "    Also provide a brief reason in one sentence.\n    "

/-- The prompt job_matches_preferences sends for a given configuration
and job record. -/
def classifierPrompt (cfg : Config) (ji : JobInfo) : String :=
  buildPreferencePrompt cfg.jobPreferences
    (ji.title.getD "Not specified") (ji.company.getD "Not specified")
    (ji.location.getD "Not specified") (ji.experience.getD "Not specified")
    (ji.description.getD "Not specified") (ji.requirements.getD "Not specified")

/-- job_matches_preferences: builds the prompt, makes one client call,
parses the response.  Returns the (decision, reason) pair together
with the number of model calls the single client invocation made. -/
def job_matches_preferences_run (cfg : Config) (ji : JobInfo)
    (oracle : Nat → Except String String) : (Bool × String) × Nat :=
  (parseMatchResult (bardRun (classifierPrompt cfg ji) oracle).1,
    (bardRun (classifierPrompt cfg ji) oracle).2)

/-- The decision part of a classification. -/
def job_matches_preferences (cfg : Config) (ji : JobInfo)
    (oracle : Nat → Except String String) : Bool × String :=
  (job_matches_preferences_run cfg ji oracle).1

/- ===================== Default answers and safe responses =====================
src/job_processor.py, get_default_answer (lines 732-760) and
get_safe_response (lines 717-730). -/

/-- get_default_answer: keyword-matched static fallbacks. -/
def get_default_answer (question : String) (cfg : Config) : String :=
  let q := pyLower question
  if strContains q "notice" || strContains q "joining" then cfg.defaultAnswers.noticePeriod
  else if strContains q "salary" || strContains q "ctc" || strContains q "package" then
    cfg.defaultAnswers.expectedSalary
  else if strContains q "location" || strContains q "city" then cfg.defaultAnswers.currentLocation
  else if strContains q "shift" || strContains q "work hours" || strContains q "timing" then "Flexible"
  else if strContains q "reason" || strContains q "why" then cfg.defaultAnswers.reasonForJobChange
  else if strContains q "date of birth" || strContains q "dob" then cfg.dobFormat
  else if strContains q "willing to relocate" then "Yes"
  else if strContains q "preferred location" then
    match cfg.defaultAnswers.preferredLocations with
    | [] => "Remote"
    | l :: _ => l
  else if strContains q "experience" || strContains q "years" then "3.5 years"
  else if strContains q "skills" || strContains q "technologies" then "Python, Django, Flask"
  else cfg.defaultAnswers.genericResponse

/-- get_safe_response with its model-call count: empty questions are
answered Yes before any call; an empty client response falls back to
get_default_answer.  The except branch of the source is unreachable
here because the embedded client is total on string inputs. -/
def get_safe_response_run (question : String) (cfg : Config)
    (oracle : Nat → Except String String) : String × Nat :=
  if pyStrip question = "" then ("Yes", 0)
  else
    let r := bardRun question oracle
    if r.1 = "" then (get_default_answer question cfg, r.2) else r

/-- The text get_safe_response returns. -/
def get_safe_response (question : String) (cfg : Config)
    (oracle : Nat → Except String String) : String :=
  (get_safe_response_run question cfg oracle).1

/- ===================== Listing extraction =====================
src/job_processor.py, extract_job_links (lines 17-177).  The page is
modelled by the href lists each selector strategy would surface; a
selector that matches nothing corresponds to an empty list (the
TimeoutException of the explicit wait is caught and skipped).  A null
href attribute is none. -/

/-- What the search-results page yields to each selector strategy of
extract_job_links. -/
structure PageEnv where
  /-- Hrefs of the anchors inside each card of the primary
  div selector with a data-job-id attribute (lines 47-64). -/
  primaryCardLinks : List (List (Option String)) := []
  /-- Hrefs of the anchors inside each card of the article.jobTuple
  fallback (lines 110-120). -/
  jobTupleCardLinks : List (List (Option String)) := []
  /-- Href of the ancestor anchor of each .jobTitle element, none when
  the element has no ancestor anchor (lines 100-106). -/
  jobTitleParents : List (Option String) := []
  /-- Href of the ancestor anchor of each .title element (same code
  path as .jobTitle). -/
  dotTitleParents : List (Option String) := []
  /-- Hrefs of the direct anchor-selector fallback elements
  (lines 91-98). -/
  directAnchors : List (Option String) := []
  /-- Hrefs of every anchor on the page, for the aggressive fallback
  (lines 131-146). -/
  allLinks : List (Option String) := []

/-- Appending a candidate href guarded by truthiness, the job-listings
path marker and the duplicate check, as at lines 60-61, 96-97, 116-117
and 142-143 of src/job_processor.py. -/
def addMarked (l : List String) (h : Option String) : List String :=
  match h with
  | none => l
  | some u =>
    if u ≠ "" ∧ strContains u "/job-listings" = true ∧ u ∉ l then l ++ [u] else l

/-- Appending the ancestor-anchor href of a title element, guarded only
by truthiness and the duplicate check (lines 103-105): this code path
applies no path-marker filter. -/
def addUnmarked (l : List String) (h : Option String) : List String :=
  match h with
  | none => l
  | some u => if u ≠ "" ∧ u ∉ l then l ++ [u] else l

/-- Last alternative selector (the direct marked-anchor selector),
tried only when the previous ones added nothing past the initial
count. -/
def fallbackPhase3 (env : PageEnv) (c : List String) (init : Nat) : List String :=
  if c.length > init then c else env.directAnchors.foldl addMarked c

/-- Third alternative selector: the .title parent anchors, unfiltered
by the path marker, followed by the direct-anchor fallback. -/
def fallbackPhase2 (env : PageEnv) (b : List String) (init : Nat) : List String :=
  if b.length > init then b
  else fallbackPhase3 env (env.dotTitleParents.foldl addUnmarked b) init

/-- Second alternative selector: the .jobTitle parent anchors,
unfiltered by the path marker, followed by the later fallbacks. -/
def fallbackPhase1 (env : PageEnv) (a : List String) (init : Nat) : List String :=
  if a.length > init then a
  else fallbackPhase2 env (env.jobTitleParents.foldl addUnmarked a) init

/-- The alternative-selector phase (lines 70-128): the four fallback
selectors are tried in order and the phase stops as soon as the total
exceeds the initial count. -/
def fallbackPhase (env : PageEnv) (l : List String) (init : Nat) : List String :=
  fallbackPhase1 env
    (env.jobTupleCardLinks.foldl (fun acc card => card.foldl addMarked acc) l) init

/-- The primary-selector phase (lines 47-68): the links inside every
card of the data-job-id selector. -/
def primaryPhase (env : PageEnv) (l : List String) : List String :=
  env.primaryCardLinks.foldl (fun acc card => card.foldl addMarked acc) l

/-- The final phase (lines 131-146): when the list has still not grown
past the initial count, every link on the page is tried; the
login-hint and screenshot branches change no data. -/
def extractTail (env : PageEnv) (l2 : List String) (init : Nat) : List String :=
  if l2.length = init then env.allLinks.foldl addMarked l2 else l2

/-- extract_job_links from a concrete starting list: primary selector;
if nothing was added, the alternative selectors; then the final
whole-page fallback guarded by the same growth test. -/
def extractFrom (env : PageEnv) (jl : List String) : List String :=
  if (primaryPhase env jl).length = jl.length then
    extractTail env (fallbackPhase env (primaryPhase env jl) jl.length) jl.length
  else extractTail env (primaryPhase env jl) jl.length

/-- extract_job_links: a missing existing_links argument starts from
the empty list, otherwise the existing list is copied and extended. -/
def extract_job_links (env : PageEnv) (existingLinks : Option (List String)) : List String :=
  extractFrom env (match existingLinks with | none => [] | some l => l)

/- ===================== Logger =====================
src/logger.py, save_job_log (lines 41-86).  A job-log record keeps the
fields the claims inspect; writing appends to the in-memory image of
the applications array. -/

/-- One record of the job-applications log. -/
structure JobLog where
  status : String
  errorReason : Option String := none
  applicationMethod : Option String := none
  questionsAnswered : Option Nat := none
  skipReason : Option String := none
deriving Repr, DecidableEq

/-- save_job_log: appends the record to the applications array (the
error-log mirroring for failed records copies data and adds no
applications entry). -/
def save_job_log (logs : List JobLog) (r : JobLog) : List JobLog :=
  logs ++ [r]

/- ===================== Radio-button handler =====================
src/job_processor.py, handle_radio_buttons (lines 762-819).  Every
exception inside the handler is caught by the final except and turned
into the return value False, so the embedding is total. -/

/-- What the page and the model present to one invocation of
handle_radio_buttons. -/
structure RadioEnv where
  /-- Whether the one-second wait for radio containers succeeds;
  a timeout raises and the handler returns False. -/
  containersPresent : Bool := false
  /-- Text of the question element; none when find_element raises. -/
  questionFound : Option String := none
  /-- Label text and input value of each radio container, in order. -/
  options : List (String × String) := []
  /-- The model-call oracle for the option-choice prompt. -/
  oracle : Nat → Except String String := fun _ => Except.error ""
  /-- Whether waiting for and clicking the save control succeeds. -/
  saveButtonOk : Bool := false
  /-- Whether the successfully-applied message appears within the
  three-second wait. -/
  successShown : Bool := false

/-- Outcome of handle_radio_buttons: return value, job-log records
written, and the effective position of the radio input that was
clicked, if any. -/
structure RadioResult where
  ok : Bool
  logs : List JobLog
  clickedIndex : Option Nat
deriving Repr, DecidableEq

/-- The numbered options-and-question prompt of lines 773-781. -/
def radioPrompt (question : String) (options : List (String × String)) : String :=
  let lines := ((List.range options.length).zip options).map
    (fun p => toString (p.1 + 1) ++ ". " ++ p.2.1 ++ " (Value: " ++ p.2.2 ++ ")")
  question ++ "\n" ++ String.intercalate "\n" lines

/-- The reply the model gives to the options prompt of one
handle_radio_buttons invocation. -/
def radioReply (e : RadioEnv) (question : String) : String :=
  bard_flash_response (radioPrompt question e.options) e.oracle

/-- handle_radio_buttons.  The reply is parsed with int(); the option
list is indexed at the parsed value minus one with Python indexing, so
a negative effective index counts from the end of the list; a parse
or index failure raises inside the try and the handler returns False.
The success log (lines 809-814) is the only job-log write. -/
def handle_radio_buttons (e : RadioEnv) : RadioResult :=
  if !e.containersPresent then ⟨false, [], none⟩
  else
    match e.questionFound with
    | none => ⟨false, [], none⟩
    | some question =>
      match pyInt (radioReply e question) with
      | none => ⟨false, [], none⟩
      | some selectedOption =>
        match pyIdx e.options.length (selectedOption - 1) with
        | none => ⟨false, [], none⟩
        | some j =>
          if !e.saveButtonOk then ⟨false, [], some j⟩
          else if !e.successShown then ⟨false, [], some j⟩
          else ⟨true, [⟨"success", none, some "radio_buttons", none, none⟩], some j⟩

/- ===================== Free-text handler =====================
src/job_processor.py, handle_text_input (lines 821-1111).  The handler
is a bounded multi-round loop; each round is described by an
environment record.  The DOB special case fills a different control
but changes neither the return value nor the logs, so it carries no
environment field. -/

/-- What the page presents to one round of handle_text_input. -/
structure TextRound where
  /-- Whether the three-second wait for the chat list succeeds; a
  timeout raises to the round-level except. -/
  chatListFound : Bool := false
  /-- Whether the chat list has any li elements (line 844). -/
  liNonEmpty : Bool := false
  /-- Question text the backward scan of lines 848-882 produces. -/
  scanText : Option String := none
  /-- Question text the broad first-round search of lines 894-904
  produces. -/
  broadText : Option String := none
  /-- Model-call oracle for get_safe_response on this round. -/
  oracle : Nat → Except String String := fun _ => Except.error ""
  /-- Whether a displayed input field is found (lines 954-973). -/
  inputFound : Bool := false
  /-- Whether a success indicator is displayed when no input field was
  found (lines 979-996). -/
  successNoInput : Bool := false
  /-- Whether an exception is raised while filling the input and
  clicking the submit control (the inner try of lines 953-1083). -/
  fillRaises : Bool := false
  /-- Whether a success indicator is displayed after the answer is
  submitted (lines 1057-1074). -/
  successAfterAnswer : Bool := false

/-- How one round of handle_text_input ends: return from the handler,
leave the loop (in_qa_sequence set to False, reaching the post-loop
code), or proceed to the next round.  Each carries the job-log records
written and the number of questions answered during the round. -/
inductive RoundStep where
  | ret (ok : Bool) (newLogs : List JobLog) (answeredDelta : Nat)
  | leave (newLogs : List JobLog) (answeredDelta : Nat)
  | next (newLogs : List JobLog) (answeredDelta : Nat)

/-- Outcome of handle_text_input: return value, job-log records
written, and the number of questions answered (a ghost observation:
one per round in which a response was filled in and submitted). -/
structure TextResult where
  ok : Bool
  logs : List JobLog
  answered : Nat
deriving Repr, DecidableEq

/-- The answering part of a round (lines 946-1083), entered with the
question text t settled.  get_safe_response is computed first
(line 949); then the input search, the optional special cases, the
fill, the submit click and the success rescan. -/
def textAnswerPhase (cfg : Config) (r : TextRound) (c : Nat) (t : String) : RoundStep :=
  let _response := get_safe_response t cfg r.oracle
  if !r.inputFound then
    if r.successNoInput then
      RoundStep.ret true [⟨"success", none, some "text_input_qa_sequence", some (c - 1), none⟩] 0
    else RoundStep.leave [] 0
  else if r.fillRaises then
    RoundStep.ret (decide (c > 1)) [] 0
  else if r.successAfterAnswer then
    RoundStep.ret true [⟨"success", none, some "text_input_qa_sequence", some c, none⟩] 1
  else RoundStep.next [] 1

/-- The question text a round settles on before the logging check:
the backward-scan result when truthy, otherwise the broad-search
result (the broad search only runs in the first round, which the
earlier leave branch of the round guarantees). -/
def roundText (r : TextRound) : Option String :=
  if optTruthy r.scanText then r.scanText else r.broadText

/-- One round of handle_text_input with round number c (the value of
question_count after the increment at line 831). -/
def textRoundStep (cfg : Config) (r : TextRound) (c : Nat) : RoundStep :=
  if !r.chatListFound then RoundStep.ret (decide (c > 1)) [] 0
  else if !r.liNonEmpty then RoundStep.ret false [] 0
  else if !optTruthy r.scanText ∧ c > 1 then RoundStep.leave [] 0
  else if optTruthy (roundText r) ∧ pyStrip ((roundText r).getD "") ≠ "" then
    textAnswerPhase cfg r c ((roundText r).getD "")
  else if c > 1 then RoundStep.leave [] 0
  else textAnswerPhase cfg r c "Please provide a brief response"

/-- The post-loop code of handle_text_input (lines 1100-1111): a run
that got past its first round is logged and reported as success even
without an explicit success indicator. -/
def textFinish (count answered : Nat) (logs : List JobLog) : TextResult :=
  if count > 1 then
    ⟨true,
      save_job_log logs ⟨"success", none, some "text_input_qa_sequence_completed", some (count - 1), none⟩,
      answered⟩
  else ⟨false, logs, answered⟩

/-- The while loop of handle_text_input.  The fuel is the number of
rounds still allowed (max_sequential_questions minus question_count);
rounds are numbered from 1 for the environment. -/
def textLoop (cfg : Config) (env : Nat → TextRound) :
    Nat → Nat → Nat → List JobLog → TextResult
  | 0, count, answered, logs => textFinish count answered logs
  | fuel + 1, count, answered, logs =>
    let c := count + 1
    match textRoundStep cfg (env c) c with
    | RoundStep.ret ok nl a => ⟨ok, logs ++ nl, answered + a⟩
    | RoundStep.leave nl a => textFinish c (answered + a) (logs ++ nl)
    | RoundStep.next nl a => textLoop cfg env fuel c (answered + a) (logs ++ nl)

/-- handle_text_input: at most 15 sequential rounds starting from
question_count 0 with no logs written. -/
def handle_text_input (cfg : Config) (env : Nat → TextRound) : TextResult :=
  textLoop cfg env 15 0 0 []

/- ===================== Success-indicator scan =====================
src/job_processor.py, check_for_success_indicators (lines 1113-1149). -/

/-- What the page shows to one success-indicator scan. -/
structure SuccEnv where
  /-- Whether one of the structural indicators is displayed
  (lines 1116-1132). -/
  indicatorShown : Bool := false
  /-- Whether one of the success phrases occurs in the page source
  (lines 1134-1144). -/
  pagePhrase : Bool := false

/-- check_for_success_indicators: each positive detection writes one
success record and returns True. -/
def check_for_success_indicators (e : SuccEnv) : Bool × List JobLog :=
  if e.indicatorShown then (true, [⟨"success", none, some "success_detection", none, none⟩])
  else if e.pagePhrase then (true, [⟨"success", none, some "text_detection", none, none⟩])
  else (false, [])

/- ===================== External-site branch =====================
src/job_processor.py, extract_job_card_data (lines 390-470) and
handle_company_site_application (lines 472-551). -/

/-- What the page presents to the external-site branch. -/
structure ExtEnv where
  /-- Card fields extract_job_card_data finds; none when the selector
  matches nothing. -/
  cardTitle : Option String := none
  cardCompany : Option String := none
  cardLocation : Option String := none
  cardExperience : Option String := none
  cardDescription : Option String := none
  /-- Whether the job_header element of the alternative extraction
  exists (lines 484-502); its fields follow. -/
  headerFound : Bool := false
  headerTitle : Option String := none
  headerCompany : Option String := none
  /-- Model-call oracle for the preference classification. -/
  oracle : Nat → Except String String := fun _ => Except.error ""
  /-- Whether a displayed company-site control exists when the click
  branch runs (lines 535-538). -/
  buttonDisplayed : Bool := false

/-- The tail of handle_company_site_application after the preference
gate (lines 526-551): the matched record is always written; with
redirect handling enabled and a displayed control, the visited record
follows and the click branch returns True; every path returns True. -/
def extSiteProceed (cfg : Config) (e : ExtEnv) : Bool × List JobLog :=
  let matched : JobLog := ⟨"external_site_matched", none, some "external_site", none, none⟩
  if cfg.handleExternalRedirects ∧ e.buttonDisplayed then
    (true, [matched, ⟨"external_site_visited", none, some "external_site", none, none⟩])
  else (true, [matched])

/-- handle_company_site_application: extracts the card data, falls back
to the header extraction when title and company are both missing, runs
the preference gate when a title or a description is available, and
logs accordingly.  Returns the value of the function and the job-log
records written. -/
def handle_company_site_application (cfg : Config) (e : ExtEnv) : Bool × List JobLog :=
  let title0 := e.cardTitle
  let company0 := e.cardCompany
  let title :=
    if !optTruthy title0 ∧ !optTruthy company0 ∧ e.headerFound then
      match e.headerTitle with | some t => some t | none => title0
    else title0
  let company :=
    if !optTruthy title0 ∧ !optTruthy company0 ∧ e.headerFound then
      match e.headerCompany with | some cn => some cn | none => company0
    else company0
  if optTruthy title ∨ optTruthy e.cardDescription then
    let ji : JobInfo :=
      ⟨title, company, e.cardLocation, e.cardExperience, e.cardDescription, none⟩
    let d := job_matches_preferences cfg ji e.oracle
    if !d.1 then
      (false, [⟨"skipped", none, none, none, some "preference_mismatch"⟩])
    else extSiteProceed cfg e
  else extSiteProceed cfg e

/- ===================== Job processor =====================
src/job_processor.py, process_job (lines 1151-1311). -/

/-- What the page presents to one iteration of the question loop of
process_job. -/
structure IterEnv where
  radio : RadioEnv := {}
  text : Nat → TextRound := fun _ => {}
  succ : SuccEnv := {}
  /-- Whether any chat-item, chatbot or question element remains on the
  page (lines 1278-1281). -/
  continuationPresent : Bool := false
  /-- Whether the page source contains both the words successfully and
  applied (lines 1283-1284). -/
  pageSuccessText : Bool := false

/-- What the page and the model present to one process_job call. -/
structure JobEnv where
  /-- Whether a company-site control is present (line 1157). -/
  companySiteButton : Bool := false
  ext : ExtEnv := {}
  /-- Whether extract_detailed_job_info detects an HTML error page
  (lines 562-580). -/
  htmlError : Bool := false
  /-- Whether an already-applied indicator is present (lines 1172-1176). -/
  alreadyApplied : Bool := false
  /-- Model-call oracle for the preference classification. -/
  oracle : Nat → Except String String := fun _ => Except.error ""
  jobInfo : JobInfo := {}
  /-- Whether the direct-apply attempt raises (lines 1200-1229). -/
  applyRaises : Bool := false
  /-- Whether the immediate success message is present after the
  direct-apply click (lines 1213-1217). -/
  applyImmediateSuccess : Bool := false
  iters : Nat → IterEnv := fun _ => {}

/-- Outcome of process_job: return value, job-log records written,
final question_attempts and job_error_count, and the ghost count of
questions answered across the text-handler calls. -/
structure ProcResult where
  ok : Bool
  logs : List JobLog
  attempts : Nat
  errors : Nat
  answered : Nat
deriving Repr, DecidableEq

/-- The post-loop fallback of process_job (lines 1295-1307): with at
most one error and more than three loop attempts the ambiguous outcome
is logged and reported as success with method probable_success;
otherwise process_job returns False with no record. -/
def finishLoop (attempts errors answered : Nat) (logs : List JobLog) : ProcResult :=
  if errors ≤ 1 ∧ attempts > 3 then
    ⟨true, save_job_log logs ⟨"success", none, some "probable_success", none, none⟩,
      attempts, errors, answered⟩
  else ⟨false, logs, attempts, errors, answered⟩

/-- The question loop of process_job (lines 1232-1293): radio handler,
text handler, success scan, error ceiling, then the continuation check
that either detects success text, breaks to the post-loop code, or
goes on to the next attempt.  The handler calls are total in this
embedding, so the excepts that would increment the error count around
them are unreachable. -/
def questionLoop (cfg : Config) (env : JobEnv) :
    Nat → Nat → Nat → Nat → List JobLog → ProcResult
  | 0, attempts, errors, answered, logs => finishLoop attempts errors answered logs
  | fuel + 1, attempts, errors, answered, logs =>
    let a := attempts + 1
    let it := env.iters a
    let rr := handle_radio_buttons it.radio
    if rr.ok then ⟨true, logs ++ rr.logs, a, errors, answered⟩
    else
      let tr := handle_text_input cfg it.text
      let answeredNow := answered + tr.answered
      if tr.ok then ⟨true, logs ++ rr.logs ++ tr.logs, a, errors, answeredNow⟩
      else
        let sres := check_for_success_indicators it.succ
        let logsNow := logs ++ rr.logs ++ tr.logs ++ sres.2
        if sres.1 then ⟨true, logsNow, a, errors, answeredNow⟩
        else if errors > cfg.maxErrorCountPerJob then
          ⟨false, save_job_log logsNow ⟨"failed", some "too_many_errors", none, none, none⟩,
            a, errors, answeredNow⟩
        else if !it.continuationPresent then
          if it.pageSuccessText then
            ⟨true, save_job_log logsNow ⟨"success", none, some "text_detection", none, none⟩,
              a, errors, answeredNow⟩
          else finishLoop a errors answeredNow logsNow
        else questionLoop cfg env fuel a errors answeredNow logsNow

/-- process_job: company-site short circuit, HTML-error check,
already-applied check, preference gate, direct-apply attempt, then the
question loop with max_question_attempts = 10.  The except around the
preference call (lines 1193-1197) is unreachable here because the
embedded classifier is total, so job_error_count entering the loop is
set only by the direct-apply attempt. -/
def process_job (cfg : Config) (env : JobEnv) : ProcResult :=
  if env.companySiteButton then
    let r := handle_company_site_application cfg env.ext
    ⟨r.1, r.2, 0, 0, 0⟩
  else if env.htmlError then
    ⟨false, [⟨"failed", some "html_response", none, none, none⟩], 0, 0, 0⟩
  else if env.alreadyApplied then
    ⟨true, [⟨"success", none, some "already_applied", none, none⟩], 0, 0, 0⟩
  else
    let d := job_matches_preferences cfg env.jobInfo env.oracle
    if !d.1 then ⟨false, [], 0, 0, 0⟩
    else if env.applyRaises then
      let errs := 1
      if errs > 2 then ⟨false, [], 0, errs, 0⟩
      else questionLoop cfg env 10 0 errs 0 []
    else if env.applyImmediateSuccess then
      ⟨true, [⟨"success", none, some "direct_apply", none, none⟩], 0, 0, 0⟩
    else questionLoop cfg env 10 0 0 0 []

/- ===================== Orchestrator =====================
src/main.py: processed-jobs tracking (lines 58-70), batch processing
(lines 72-131), fingerprint tracking (lines 336-349) and stuck
detection (lines 353-363).  The Python set of processed URLs is
modelled as a duplicate-free-by-construction list. -/

/-- Membership in the processed set, is_job_processed (lines 58-61). -/
def is_job_processed (processed : List String) (url : String) : Bool :=
  url ∈ processed

/-- Insertion into the processed set, mark_job_processed (lines 63-70);
the periodic flush to disk changes no in-memory state. -/
def mark_job_processed (processed : List String) (url : String) : List String :=
  if url ∈ processed then processed else processed ++ [url]

/-- What process_job does for a given URL, seen from the batch loop:
a boolean result, or an exception anywhere inside the per-URL try
block (navigation, privacy handling or processing). -/
inductive JobOutcome where
  | ok (success : Bool)
  | raise

/-- The mutable state of one process_job_batch call, together with the
list of URLs whose per-URL try block was entered (the attempts). -/
structure BatchState where
  processed : List String
  attempted : List String
  succ : Nat
  failed : Nat
deriving Repr, DecidableEq

/-- The per-URL loop of process_job_batch (lines 81-124): skip already
processed URLs, otherwise attempt the URL, record the result, mark the
URL processed, and stop early once the success count reaches
max_applications. -/
def batchGo (env : String → JobOutcome) (maxApps : Nat) :
    List String → BatchState → BatchState
  | [], st => st
  | url :: rest, st =>
    if is_job_processed st.processed url then batchGo env maxApps rest st
    else
      match env url with
      | JobOutcome.raise =>
        batchGo env maxApps rest
          ⟨mark_job_processed st.processed url, st.attempted ++ [url], st.succ, st.failed + 1⟩
      | JobOutcome.ok true =>
        if st.succ + 1 ≥ maxApps then
          ⟨mark_job_processed st.processed url, st.attempted ++ [url], st.succ + 1, st.failed⟩
        else
          batchGo env maxApps rest
            ⟨mark_job_processed st.processed url, st.attempted ++ [url], st.succ + 1, st.failed⟩
      | JobOutcome.ok false =>
        batchGo env maxApps rest
          ⟨mark_job_processed st.processed url, st.attempted ++ [url], st.succ, st.failed + 1⟩

/-- process_job_batch: at most 20 URLs of the list are attempted, with
local success and failure counters starting at zero. -/
def process_job_batch (env : String → JobOutcome) (maxApps : Nat)
    (processed : List String) (jobLinks : List String) : BatchState :=
  batchGo env maxApps (jobLinks.take 20) ⟨processed, [], 0, 0⟩

/-- A run, seen as the sequence of job batches the main loop feeds to
process_job_batch while the processed set persists across batches.
Returns the final processed set and the concatenated attempt lists. -/
def runBatches (env : String → JobOutcome) (maxApps : Nat) :
    List (List String) → List String → List String × List String
  | [], processed => (processed, [])
  | b :: bs, processed =>
    ((runBatches env maxApps bs (process_job_batch env maxApps processed b).processed).1,
      (process_job_batch env maxApps processed b).attempted ++
        (runBatches env maxApps bs (process_job_batch env maxApps processed b).processed).2)

/- ===================== Loop detection =====================
src/main.py, refresh_job_listings lines 336-349 and is_search_stuck
lines 353-363.  The Python fingerprint is hash(tuple(sorted(first ten
links))); the hash is modelled as the sorted ten-element list itself,
so identical fingerprints coincide exactly. -/

/-- The batch fingerprint: the sorted first ten links (lines 341-342). -/
def fingerprintOf (links : List String) : List String :=
  List.insertionSort (fun a b => a ≤ b) (links.take 10)

/-- Recording one fetch into recent_job_batches (lines 337-347): only
a nonempty link list is recorded, and the window keeps the last five
entries by popping the front once when it exceeds five. -/
def recordFingerprint (window : List (List String)) (links : List String) :
    List (List String) :=
  if links = [] then window
  else if (window ++ [fingerprintOf links]).length > 5 then
    (window ++ [fingerprintOf links]).tail
  else window ++ [fingerprintOf links]

/-- is_search_stuck: with fewer recorded batches than min_repeats the
answer is False; otherwise the last fingerprint is counted across the
whole window.  The none branch is unreachable for positive min_repeats
since the window is then nonempty; in Python it would raise on the
empty-list index. -/
def is_search_stuck (minRepeats : Nat) (window : List (List String)) : Bool :=
  if window.length < minRepeats then false
  else
    match window.getLast? with
    | none => false
    | some lastBatch => decide (minRepeats ≤ window.count lastBatch)

/- ===================== Classification stage of process_job =====================
src/job_processor.py, lines 1184-1197, as a step function: the stage
receives either the classification outcome or an exception that
propagated out of job_matches_preferences, along with the current
job_error_count. -/

/-- How the classification stage leaves process_job. -/
inductive ClassifyStep where
  | skipJob
  | proceed (errCount : Nat)
deriving Repr, DecidableEq

/-- The classification stage: a negative decision returns False
immediately; an exception increments the error count and returns False
once the count exceeds two, otherwise the flow continues to the apply
attempt; a positive decision continues unchanged. -/
def classifyStage (result : Except Unit Bool) (errCount : Nat) : ClassifyStep :=
  match result with
  | Except.ok true => ClassifyStep.proceed errCount
  | Except.ok false => ClassifyStep.skipJob
  | Except.error _ =>
    let e := errCount + 1
    if e > 2 then ClassifyStep.skipJob else ClassifyStep.proceed e

/- ===================== Helper lemmas ===================== -/

/-- If pyStrip gives the empty string, every character of the input is
whitespace. -/
theorem pyStrip_eq_empty {s : String} (h : pyStrip s = "") :
    ∀ c ∈ s.data, isPyWhitespace c := by
  unfold pyStrip at h
  have hd : ((s.data.dropWhile isPyWhitespace).reverse.dropWhile isPyWhitespace).reverse
      = [] := congrArg String.data h
  rw [List.reverse_eq_nil_iff, List.dropWhile_eq_nil_iff] at hd
  intro c hc
  rw [← List.takeWhile_append_dropWhile (p := isPyWhitespace) (l := s.data)] at hc
  rcases List.mem_append.1 hc with h1 | h2
  · exact List.mem_takeWhile_imp h1
  · exact hd c (List.mem_reverse.2 h2)

/-- An all-whitespace string strips to the empty string. -/
theorem pyStrip_of_all_ws {s : String} (h : ∀ c ∈ s.data, isPyWhitespace c) :
    pyStrip s = "" := by
  unfold pyStrip
  rw [List.dropWhile_eq_nil_iff.2 h]
  rfl

/-- The classifier prompt never strips to the empty string: its first
literal segment holds the letter M. -/
theorem buildPreferencePrompt_ne_ws (p t c l e d r : String) :
    pyStrip (buildPreferencePrompt p t c l e d r) ≠ "" := by
  intro h
  have hM : 'M' ∈ (buildPreferencePrompt p t c l e d r).data := by
    unfold buildPreferencePrompt
    simp only [String.data_append]
    repeat apply List.mem_append_left
    decide
  have := pyStrip_eq_empty h 'M' hM
  simp [isPyWhitespace] at this

/-- The classifier prompt for any configuration and job record never
strips to the empty string. -/
theorem classifierPrompt_ne_ws (cfg : Config) (ji : JobInfo) :
    pyStrip (classifierPrompt cfg ji) ≠ "" :=
  buildPreferencePrompt_ne_ws cfg.jobPreferences
    (ji.title.getD "Not specified") (ji.company.getD "Not specified")
    (ji.location.getD "Not specified") (ji.experience.getD "Not specified")
    (ji.description.getD "Not specified") (ji.requirements.getD "Not specified")

/-- The reason component of the parsed classifier response is always
the raw response. -/
theorem parseMatchResult_reason (r : String) : (parseMatchResult r).2 = r := by
  unfold parseMatchResult
  split
  · rfl
  · split <;> rfl

/- ===================== Claim C1 ===================== -/

/-- C1.  Preference-match parsing in job_matches_preferences yields the
decision True exactly when the lowercased response begins with yes or
holds yes as a standalone space-delimited token (the source checks for
the substring consisting of yes surrounded by one space on each side),
and False otherwise; the three concrete conversions of the claim hold,
with the raw response returned as the reason for the empty input. -/
theorem C1_preference_parsing :
    (∀ r : String, parseMatchDecision r = true ↔
      (strStartsWith (pyLower r) "yes" = true ∨ strContains (pyLower r) " yes " = true))
    ∧ parseMatchResult "Yes, strong skills overlap." = (true, "Yes, strong skills overlap.")
    ∧ parseMatchResult "No, location mismatch." = (false, "No, location mismatch.")
    ∧ parseMatchResult "" = (false, "") := by
  refine ⟨?_, rfl, rfl, rfl⟩
  intro r
  unfold parseMatchDecision parseMatchResult
  split
  · simp_all
  · split <;> simp_all

/- ===================== Claim C10 ===================== -/

/-- C10.  A question that is empty or consists only of whitespace is
answered with the literal Yes by both the client and the safe-response
wrapper, with zero model calls made. -/
theorem C10_empty_question_yes :
    ∀ (q : String) (cfg : Config) (oracle : Nat → Except String String),
      (∀ c ∈ q.data, isPyWhitespace c) →
      bardRun q oracle = ("Yes", 0) ∧ get_safe_response_run q cfg oracle = ("Yes", 0) := by
  intro q cfg oracle h
  have hs : pyStrip q = "" := pyStrip_of_all_ws h
  constructor
  · unfold bardRun
    rw [if_pos hs]
  · unfold get_safe_response_run
    rw [if_pos hs]

/-- An oracle whose answers must never be consulted. -/
def c10Oracle : Nat → Except String String := fun _ => Except.ok "unreached"

/-- Witness for C10 at a blank two-character question. -/
theorem C10_empty_question_yes_witness :
    bardRun " \t" c10Oracle = ("Yes", 0)
    ∧ get_safe_response_run " \t" {} c10Oracle = ("Yes", 0) :=
  C10_empty_question_yes " \t" {} c10Oracle (by decide)

/- ===================== Claim C2 ===================== -/

/-- The failing oracle of the C2 counterexample: every model call
raises with a generic message. -/
def c2FailOracle : Nat → Except String String := fun _ => Except.error "network timeout"

/-- Configuration and job record for the C2 counterexample. -/
def c2Config : Config := {}

/-- Job record for the C2 counterexample. -/
def c2JobInfo : JobInfo := {}

/-- C2 counterexample.  When every language-model call inside the
preference classification raises, the client consumes its three
internal retries and returns the fallback text Yes, and the classifier
parses that fallback as a positive match: the job is treated as
matched, not as no decision, and the callers skip-after-budget path is
never reached. -/
theorem C2_counterexample :
    job_matches_preferences c2Config c2JobInfo c2FailOracle = (true, "Yes")
    ∧ (job_matches_preferences_run c2Config c2JobInfo c2FailOracle).2 = 3 := by
  constructor <;> rfl

/-- C2 amended.  An exception in the language-model call is retried
inside the client up to three times (the classification layer adds no
retry of its own: one client invocation, at most three model calls).
When all three attempts raise, the client returns the per-error
fallback text, and the classifier reports a positive match exactly
when that fallback is Yes, so the job then proceeds instead of being
skipped.  Only an exception that propagates out of the classification
layer itself reaches process_job, which increments its local error
budget and skips the job precisely when the count exceeds two. -/
theorem C2_amended_failure_policy :
    ∀ (cfg : Config) (ji : JobInfo) (oracle : Nat → Except String String)
      (m0 m1 m2 : String) (n : Nat),
      oracle 0 = Except.error m0 → oracle 1 = Except.error m1 → oracle 2 = Except.error m2 →
      (job_matches_preferences_run cfg ji oracle).2 = 3
      ∧ (job_matches_preferences cfg ji oracle).2 = fallbackForError m2
      ∧ ((job_matches_preferences cfg ji oracle).1 = true ↔ fallbackForError m2 = "Yes")
      ∧ classifyStage (Except.error ()) n =
          (if n + 1 > 2 then ClassifyStep.skipJob else ClassifyStep.proceed (n + 1)) := by
  intro cfg ji oracle m0 m1 m2 n h0 h1 h2
  have hp := classifierPrompt_ne_ws cfg ji
  have hrun : bardRun (classifierPrompt cfg ji) oracle = (fallbackForError m2, 3) := by
    unfold bardRun
    rw [if_neg hp]
    simp [bardLoop, h0, h1, h2]
  refine ⟨?_, ?_, ?_, ?_⟩
  · unfold job_matches_preferences_run
    rw [hrun]
  · unfold job_matches_preferences job_matches_preferences_run
    rw [hrun]
    exact parseMatchResult_reason (fallbackForError m2)
  · unfold job_matches_preferences job_matches_preferences_run
    rw [hrun]
    unfold fallbackForError
    split
    · constructor
      · intro hdec
        exact absurd hdec (by decide)
      · intro hyes
        exact absurd hyes (by decide)
    · constructor
      · intro _
        rfl
      · intro _
        decide
  · simp [classifyStage]

/-- An all-failing oracle for the C2 witness. -/
def c2wOracle : Nat → Except String String := fun _ => Except.error "boom"

/-- Witness for the amended C2 at a concrete oracle and error count. -/
theorem C2_amended_failure_policy_witness :
    (job_matches_preferences_run c2Config c2JobInfo c2wOracle).2 = 3
    ∧ classifyStage (Except.error ()) 2 = ClassifyStep.skipJob := by
  have h := C2_amended_failure_policy c2Config c2JobInfo c2wOracle "boom" "boom" "boom" 2
    rfl rfl rfl
  refine ⟨h.1, ?_⟩
  rw [h.2.2.2]
  rfl

/- ===================== Lemmas about listing extraction ===================== -/

/-- addMarked only appends. -/
theorem addMarked_extends (l : List String) (h : Option String) :
    ∃ t, addMarked l h = l ++ t := by
  cases h with
  | none => exact ⟨[], by simp [addMarked]⟩
  | some u =>
    by_cases hc : u ≠ "" ∧ strContains u "/job-listings" = true ∧ u ∉ l
    · refine ⟨[u], ?_⟩
      simp only [addMarked]
      rw [if_pos hc]
    · refine ⟨[], ?_⟩
      simp only [addMarked]
      rw [if_neg hc]
      simp

/-- addUnmarked only appends. -/
theorem addUnmarked_extends (l : List String) (h : Option String) :
    ∃ t, addUnmarked l h = l ++ t := by
  cases h with
  | none => exact ⟨[], by simp [addUnmarked]⟩
  | some u =>
    by_cases hc : u ≠ "" ∧ u ∉ l
    · refine ⟨[u], ?_⟩
      simp only [addUnmarked]
      rw [if_pos hc]
    · refine ⟨[], ?_⟩
      simp only [addUnmarked]
      rw [if_neg hc]
      simp

/-- addMarked keeps the list duplicate-free. -/
theorem addMarked_nodup (l : List String) (h : Option String) (hl : l.Nodup) :
    (addMarked l h).Nodup := by
  cases h with
  | none => simpa [addMarked] using hl
  | some u =>
    by_cases hc : u ≠ "" ∧ strContains u "/job-listings" = true ∧ u ∉ l
    · simp only [addMarked]
      rw [if_pos hc]
      simp [List.nodup_append, hl, hc.2.2]
    · simp only [addMarked]
      rw [if_neg hc]
      exact hl

/-- addUnmarked keeps the list duplicate-free. -/
theorem addUnmarked_nodup (l : List String) (h : Option String) (hl : l.Nodup) :
    (addUnmarked l h).Nodup := by
  cases h with
  | none => simpa [addUnmarked] using hl
  | some u =>
    by_cases hc : u ≠ "" ∧ u ∉ l
    · simp only [addUnmarked]
      rw [if_pos hc]
      simp [List.nodup_append, hl, hc.2]
    · simp only [addUnmarked]
      rw [if_neg hc]
      exact hl

/-- Every element addMarked adds carries the path marker. -/
theorem addMarked_mem (l : List String) (h : Option String) (u : String)
    (hm : u ∈ addMarked l h) : u ∈ l ∨ strContains u "/job-listings" = true := by
  cases h with
  | none => exact Or.inl (by simpa [addMarked] using hm)
  | some v =>
    by_cases hc : v ≠ "" ∧ strContains v "/job-listings" = true ∧ v ∉ l
    · simp only [addMarked] at hm
      rw [if_pos hc] at hm
      rcases List.mem_append.1 hm with h1 | h2
      · exact Or.inl h1
      · simp at h2
        subst h2
        exact Or.inr hc.2.1
    · simp only [addMarked] at hm
      rw [if_neg hc] at hm
      exact Or.inl hm

/-- A fold of an appending step only appends. -/
theorem foldl_extends {α : Type} (f : List String → α → List String)
    (hf : ∀ l a, ∃ t, f l a = l ++ t) (xs : List α) :
    ∀ l, ∃ t, xs.foldl f l = l ++ t := by
  induction xs with
  | nil => intro l; exact ⟨[], by simp⟩
  | cons x xs ih =>
    intro l
    obtain ⟨t1, h1⟩ := hf l x
    obtain ⟨t2, h2⟩ := ih (f l x)
    refine ⟨t1 ++ t2, ?_⟩
    rw [List.foldl_cons, h2, h1, List.append_assoc]

/-- A fold of a duplicate-preserving step preserves duplicate
freedom. -/
theorem foldl_nodup {α : Type} (f : List String → α → List String)
    (hf : ∀ l a, l.Nodup → (f l a).Nodup) (xs : List α) :
    ∀ l, l.Nodup → (xs.foldl f l).Nodup := by
  induction xs with
  | nil => intro l hl; simpa using hl
  | cons x xs ih =>
    intro l hl
    simpa using ih (f l x) (hf l x hl)

/-- A fold of a step whose additions satisfy P only adds elements
satisfying P. -/
theorem foldl_mem {α : Type} (P : String → Prop) (f : List String → α → List String)
    (hf : ∀ l a u, u ∈ f l a → u ∈ l ∨ P u) (xs : List α) :
    ∀ l u, u ∈ xs.foldl f l → u ∈ l ∨ P u := by
  induction xs with
  | nil =>
    intro l u hm
    exact Or.inl (by simpa using hm)
  | cons x xs ih =>
    intro l u hm
    rcases ih (f l x) u (by simpa using hm) with h1 | h2
    · exact hf l x u h1
    · exact Or.inr h2

/-- Composition of two append-only growths. -/
theorem extendsTrans {a b c : List String} (h1 : ∃ t, b = a ++ t) (h2 : ∃ t, c = b ++ t) :
    ∃ t, c = a ++ t := by
  obtain ⟨t1, e1⟩ := h1
  obtain ⟨t2, e2⟩ := h2
  exact ⟨t1 ++ t2, by simp [e2, e1]⟩

/-- The per-card inner fold of the card selectors only appends. -/
theorem cardFold_extends (l : List String) (card : List (Option String)) :
    ∃ t, card.foldl addMarked l = l ++ t :=
  foldl_extends addMarked addMarked_extends card l

/-- The per-card inner fold preserves duplicate freedom. -/
theorem cardFold_nodup (l : List String) (card : List (Option String)) (hl : l.Nodup) :
    (card.foldl addMarked l).Nodup :=
  foldl_nodup addMarked addMarked_nodup card l hl

/-- primaryPhase only appends. -/
theorem primaryPhase_extends (env : PageEnv) (l : List String) :
    ∃ t, primaryPhase env l = l ++ t :=
  foldl_extends _ (fun l card => cardFold_extends l card) env.primaryCardLinks l

/-- primaryPhase preserves duplicate freedom. -/
theorem primaryPhase_nodup (env : PageEnv) (l : List String) (hl : l.Nodup) :
    (primaryPhase env l).Nodup :=
  foldl_nodup _ (fun l card => cardFold_nodup l card) env.primaryCardLinks l hl

/-- Everything primaryPhase adds carries the path marker. -/
theorem primaryPhase_mem (env : PageEnv) (l : List String) (u : String)
    (hm : u ∈ primaryPhase env l) : u ∈ l ∨ strContains u "/job-listings" = true :=
  foldl_mem _ _
    (fun l card u hu => foldl_mem _ addMarked addMarked_mem card l u hu)
    env.primaryCardLinks l u hm

/-- fallbackPhase only appends. -/
theorem fallbackPhase_extends (env : PageEnv) (l : List String) (init : Nat) :
    ∃ t, fallbackPhase env l init = l ++ t := by
  unfold fallbackPhase fallbackPhase1 fallbackPhase2 fallbackPhase3
  have hA := foldl_extends _ (fun l card => cardFold_extends l card) env.jobTupleCardLinks l
  split
  · exact hA
  · have hB := extendsTrans hA
      (foldl_extends addUnmarked addUnmarked_extends env.jobTitleParents _)
    split
    · exact hB
    · have hC := extendsTrans hB
        (foldl_extends addUnmarked addUnmarked_extends env.dotTitleParents _)
      split
      · exact hC
      · exact extendsTrans hC (foldl_extends addMarked addMarked_extends env.directAnchors _)

/-- fallbackPhase preserves duplicate freedom. -/
theorem fallbackPhase_nodup (env : PageEnv) (l : List String) (init : Nat) (hl : l.Nodup) :
    (fallbackPhase env l init).Nodup := by
  unfold fallbackPhase fallbackPhase1 fallbackPhase2 fallbackPhase3
  have hA := foldl_nodup _ (fun l card => cardFold_nodup l card) env.jobTupleCardLinks l hl
  split
  · exact hA
  · have hB := foldl_nodup addUnmarked addUnmarked_nodup env.jobTitleParents _ hA
    split
    · exact hB
    · have hC := foldl_nodup addUnmarked addUnmarked_nodup env.dotTitleParents _ hB
      split
      · exact hC
      · exact foldl_nodup addMarked addMarked_nodup env.directAnchors _ hC

/-- When the two title-parent selector lists are empty, everything
fallbackPhase adds carries the path marker. -/
theorem fallbackPhase_mem (env : PageEnv) (l : List String) (init : Nat) (u : String)
    (ht1 : env.jobTitleParents = []) (ht2 : env.dotTitleParents = [])
    (hm : u ∈ fallbackPhase env l init) : u ∈ l ∨ strContains u "/job-listings" = true := by
  unfold fallbackPhase fallbackPhase1 fallbackPhase2 fallbackPhase3 at hm
  rw [ht1, ht2] at hm
  simp only [List.foldl_nil] at hm
  have hAmem : ∀ v, v ∈ env.jobTupleCardLinks.foldl
      (fun acc card => card.foldl addMarked acc) l →
      v ∈ l ∨ strContains v "/job-listings" = true :=
    fun v hv => foldl_mem _ _
      (fun l card w hw => foldl_mem _ addMarked addMarked_mem card l w hw)
      env.jobTupleCardLinks l v hv
  by_cases hA : (env.jobTupleCardLinks.foldl
      (fun acc card => card.foldl addMarked acc) l).length > init
  · rw [if_pos hA] at hm
    exact hAmem u hm
  · simp only [if_neg hA] at hm
    rcases foldl_mem _ addMarked addMarked_mem env.directAnchors _ u hm with h1 | h2
    · exact hAmem u h1
    · exact Or.inr h2

/-- extractTail only appends. -/
theorem extractTail_extends (env : PageEnv) (l : List String) (init : Nat) :
    ∃ t, extractTail env l init = l ++ t := by
  unfold extractTail
  split
  · exact foldl_extends addMarked addMarked_extends env.allLinks l
  · exact ⟨[], by simp⟩

/-- extractTail preserves duplicate freedom. -/
theorem extractTail_nodup (env : PageEnv) (l : List String) (init : Nat) (hl : l.Nodup) :
    (extractTail env l init).Nodup := by
  unfold extractTail
  split
  · exact foldl_nodup addMarked addMarked_nodup env.allLinks l hl
  · exact hl

/-- Everything extractTail adds carries the path marker. -/
theorem extractTail_mem (env : PageEnv) (l : List String) (init : Nat) (u : String)
    (hm : u ∈ extractTail env l init) : u ∈ l ∨ strContains u "/job-listings" = true := by
  unfold extractTail at hm
  split at hm
  · exact foldl_mem _ addMarked addMarked_mem env.allLinks l u hm
  · exact Or.inl hm

/-- extractFrom only appends to its starting list. -/
theorem extractFrom_extends (env : PageEnv) (jl : List String) :
    ∃ t, extractFrom env jl = jl ++ t := by
  unfold extractFrom
  split
  · exact extendsTrans
      (extendsTrans (primaryPhase_extends env jl) (fallbackPhase_extends env _ jl.length))
      (extractTail_extends env _ jl.length)
  · exact extendsTrans (primaryPhase_extends env jl) (extractTail_extends env _ jl.length)

/-- extractFrom preserves duplicate freedom. -/
theorem extractFrom_nodup (env : PageEnv) (jl : List String) (hl : jl.Nodup) :
    (extractFrom env jl).Nodup := by
  unfold extractFrom
  split
  · exact extractTail_nodup env _ jl.length
      (fallbackPhase_nodup env _ jl.length (primaryPhase_nodup env jl hl))
  · exact extractTail_nodup env _ jl.length (primaryPhase_nodup env jl hl)

/- ===================== Claim C5 ===================== -/

/-- C5.  For every page state and duplicate-free existing_urls list,
extract_job_links returns the existing list unchanged at the front
with new entries appended after it, and the returned list holds no
duplicate URL. -/
theorem C5_extraction_dedup :
    ∀ (env : PageEnv) (existing : List String),
      existing.Nodup →
      (∃ t, extract_job_links env (some existing) = existing ++ t)
      ∧ (extract_job_links env (some existing)).Nodup := by
  intro env existing hnd
  have he : extract_job_links env (some existing) = extractFrom env existing := rfl
  rw [he]
  exact ⟨extractFrom_extends env existing, extractFrom_nodup env existing hnd⟩

/-- The page of the C5 witness: the primary selector offers one link
twice and one null href. -/
def c5Env : PageEnv :=
  { primaryCardLinks :=
      [[some "https://x.example/job-listings-a", none, some "https://x.example/job-listings-a"]] }

/-- The existing list of the C5 witness. -/
def c5Existing : List String := ["https://x.example/job-listings-b"]

/-- Witness for C5 at a concrete page and existing list. -/
theorem C5_extraction_dedup_witness :
    (∃ t, extract_job_links c5Env (some c5Existing) = c5Existing ++ t)
    ∧ (extract_job_links c5Env (some c5Existing)).Nodup :=
  C5_extraction_dedup c5Env c5Existing (by decide)

/- ===================== Claim C6 ===================== -/

/-- The page of the C6 counterexample: the primary selector finds
nothing, and the .jobTitle fallback surfaces a parent anchor whose
href lacks the job-listings path marker. -/
def c6Env : PageEnv :=
  { jobTitleParents := [some "https://careers.example.com/apply/123"] }

/-- C6 counterexample.  A URL without the fixed path marker qualifies
for the returned list: the .jobTitle parent-anchor fallback appends
hrefs without the marker check, so extraction on this page returns a
URL that does not contain /job-listings. -/
theorem C6_counterexample :
    extract_job_links c6Env (some []) = ["https://careers.example.com/apply/123"]
    ∧ strContains "https://careers.example.com/apply/123" "/job-listings" = false := by
  constructor <;> rfl

/-- C6 amended.  URLs added by the primary card selector, the jobTuple
card selector, the direct anchor selector and the whole-page fallback
always carry the /job-listings path marker; only the .jobTitle and
.title parent-anchor fallbacks bypass the marker check.  Hence when
those two selectors surface nothing, every URL the extraction adds
beyond the existing entries contains the marker. -/
theorem C6_amended_marker_filter :
    ∀ (env : PageEnv) (existing : List String) (u : String),
      env.jobTitleParents = [] → env.dotTitleParents = [] →
      u ∈ extract_job_links env (some existing) → u ∉ existing →
      strContains u "/job-listings" = true := by
  intro env existing u ht1 ht2 hm hne
  have he : extract_job_links env (some existing) = extractFrom env existing := rfl
  rw [he] at hm
  unfold extractFrom at hm
  split at hm
  · rcases extractTail_mem env _ existing.length u hm with h1 | h2
    · rcases fallbackPhase_mem env _ existing.length u ht1 ht2 h1 with h3 | h4
      · rcases primaryPhase_mem env existing u h3 with h5 | h6
        · exact absurd h5 hne
        · exact h6
      · exact h4
    · exact h2
  · rcases extractTail_mem env _ existing.length u hm with h1 | h2
    · rcases primaryPhase_mem env existing u h1 with h3 | h4
      · exact absurd h3 hne
      · exact h4
    · exact h2

/-- The page of the C6 witness: no title-parent fallbacks, one marked
primary link. -/
def c6wEnv : PageEnv :=
  { primaryCardLinks := [[some "https://x.example/job-listings-w"]] }

/-- Witness for the amended C6 at a concrete page. -/
theorem C6_amended_marker_filter_witness :
    strContains "https://x.example/job-listings-w" "/job-listings" = true :=
  C6_amended_marker_filter c6wEnv [] "https://x.example/job-listings-w" rfl rfl
    (by decide) (by decide)

/- ===================== Lemmas about the processed set ===================== -/

/-- A URL is in the set after it is marked. -/
theorem mem_mark_self (s : List String) (u : String) : u ∈ mark_job_processed s u := by
  unfold mark_job_processed
  split
  · assumption
  · simp

/-- Marking keeps every earlier member. -/
theorem mark_mono (s : List String) (u v : String) (hv : v ∈ s) :
    v ∈ mark_job_processed s u := by
  unfold mark_job_processed
  split
  · exact hv
  · simp [hv]

/-- Members of the marked set come from the old set or are the marked
URL. -/
theorem mem_mark (s : List String) (u v : String) (hv : v ∈ mark_job_processed s u) :
    v ∈ s ∨ v = u := by
  unfold mark_job_processed at hv
  split at hv
  · exact Or.inl hv
  · rcases List.mem_append.1 hv with h1 | h2
    · exact Or.inl h1
    · simp at h2
      exact Or.inr h2

/-- The membership test of the batch loop agrees with list
membership. -/
theorem is_job_processed_iff (s : List String) (u : String) :
    is_job_processed s u = true ↔ u ∈ s := by
  simp [is_job_processed]

/-- The per-batch invariant: starting from a state whose attempted
URLs are duplicate-free and already inside the processed set, the
batch loop keeps the attempts duplicate-free and processed, only
grows the processed set, and the new attempts avoid every URL that
was processed on entry. -/
theorem batchGo_spec (env : String → JobOutcome) (maxApps : Nat) :
    ∀ (l : List String) (st : BatchState),
      (∀ u ∈ st.attempted, u ∈ st.processed) → st.attempted.Nodup →
      (∀ u ∈ st.processed, u ∈ (batchGo env maxApps l st).processed)
      ∧ (∀ u ∈ (batchGo env maxApps l st).attempted, u ∈ (batchGo env maxApps l st).processed)
      ∧ (batchGo env maxApps l st).attempted.Nodup
      ∧ (∃ d, (batchGo env maxApps l st).attempted = st.attempted ++ d
          ∧ ∀ u ∈ d, u ∉ st.processed) := by
  intro l
  induction l with
  | nil =>
    intro st h1 h2
    simp only [batchGo]
    exact ⟨fun u hu => hu, h1, h2, ⟨[], by simp⟩⟩
  | cons url rest ih =>
    intro st h1 h2
    by_cases hmem : url ∈ st.processed
    · have hskip : batchGo env maxApps (url :: rest) st = batchGo env maxApps rest st := by
        simp only [batchGo]
        rw [if_pos ((is_job_processed_iff st.processed url).2 hmem)]
      rw [hskip]
      exact ih st h1 h2
    · have hnotp : ¬ is_job_processed st.processed url = true := by
        rw [is_job_processed_iff]
        exact hmem
      have hstep : ∀ (st1 : BatchState),
          st1.processed = mark_job_processed st.processed url →
          st1.attempted = st.attempted ++ [url] →
          (∀ u ∈ st1.attempted, u ∈ st1.processed) ∧ st1.attempted.Nodup := by
        intro st1 hp ha
        constructor
        · intro u hu
          rw [ha] at hu
          rw [hp]
          rcases List.mem_append.1 hu with hu1 | hu2
          · exact mark_mono _ _ _ (h1 u hu1)
          · simp at hu2
            subst hu2
            exact mem_mark_self _ _
        · rw [ha]
          have hun : url ∉ st.attempted := fun hc => hmem (h1 url hc)
          simp [List.nodup_append, h2, hun]
      have hlift : ∀ (st1 : BatchState),
          st1.processed = mark_job_processed st.processed url →
          st1.attempted = st.attempted ++ [url] →
          (∀ u ∈ st.processed, u ∈ (batchGo env maxApps rest st1).processed)
          ∧ (∀ u ∈ (batchGo env maxApps rest st1).attempted,
              u ∈ (batchGo env maxApps rest st1).processed)
          ∧ (batchGo env maxApps rest st1).attempted.Nodup
          ∧ (∃ d, (batchGo env maxApps rest st1).attempted = st.attempted ++ d
              ∧ ∀ u ∈ d, u ∉ st.processed) := by
        intro st1 hp ha
        obtain ⟨hs1, hs2⟩ := hstep st1 hp ha
        obtain ⟨g1, g2, g3, g4⟩ := ih st1 hs1 hs2
        refine ⟨?_, g2, g3, ?_⟩
        · intro u hu
          apply g1
          rw [hp]
          exact mark_mono _ _ _ hu
        · obtain ⟨d, hd1, hd2⟩ := g4
          refine ⟨[url] ++ d, ?_, ?_⟩
          · rw [hd1, ha, List.append_assoc]
          · intro u hu
            rcases List.mem_append.1 hu with hu1 | hu2
            · simp at hu1
              subst hu1
              exact hmem
            · intro hc
              exact hd2 u hu2 (by rw [hp]; exact mark_mono _ _ _ hc)
      have hterm : ∀ (st1 : BatchState),
          st1.processed = mark_job_processed st.processed url →
          st1.attempted = st.attempted ++ [url] →
          (∀ u ∈ st.processed, u ∈ st1.processed)
          ∧ (∀ u ∈ st1.attempted, u ∈ st1.processed)
          ∧ st1.attempted.Nodup
          ∧ (∃ d, st1.attempted = st.attempted ++ d ∧ ∀ u ∈ d, u ∉ st.processed) := by
        intro st1 hp ha
        obtain ⟨hs1, hs2⟩ := hstep st1 hp ha
        refine ⟨?_, hs1, hs2, ⟨[url], ha, ?_⟩⟩
        · intro u hu
          rw [hp]
          exact mark_mono _ _ _ hu
        · intro u hu
          simp at hu
          subst hu
          exact hmem
      simp only [batchGo]
      rw [if_neg hnotp]
      cases henv : env url with
      | raise =>
        exact hlift ⟨mark_job_processed st.processed url, st.attempted ++ [url],
          st.succ, st.failed + 1⟩ rfl rfl
      | ok success =>
        cases success with
        | true =>
          by_cases hcap : st.succ + 1 ≥ maxApps
          · simp only [if_pos hcap]
            exact hterm ⟨mark_job_processed st.processed url, st.attempted ++ [url],
              st.succ + 1, st.failed⟩ rfl rfl
          · simp only [if_neg hcap]
            exact hlift ⟨mark_job_processed st.processed url, st.attempted ++ [url],
              st.succ + 1, st.failed⟩ rfl rfl
        | false =>
          exact hlift ⟨mark_job_processed st.processed url, st.attempted ++ [url],
            st.succ, st.failed + 1⟩ rfl rfl

/-- The run-level invariant: across any sequence of batches fed to
process_job_batch with a persistent processed set, no URL of the
initial set is ever attempted, the attempts are free of duplicates,
and every attempt ends up in the final processed set. -/
theorem runBatches_spec (env : String → JobOutcome) (maxApps : Nat) :
    ∀ (batches : List (List String)) (p : List String),
      (∀ u ∈ p, u ∉ (runBatches env maxApps batches p).2)
      ∧ (runBatches env maxApps batches p).2.Nodup
      ∧ (∀ u ∈ p, u ∈ (runBatches env maxApps batches p).1)
      ∧ (∀ u ∈ (runBatches env maxApps batches p).2, u ∈ (runBatches env maxApps batches p).1) := by
  intro batches
  induction batches with
  | nil =>
    intro p
    simp only [runBatches]
    refine ⟨fun u hu => by simp, by simp, fun u hu => hu, fun u hu => by simp at hu⟩
  | cons b bs ih =>
    intro p
    have hbatch := batchGo_spec env maxApps (b.take 20) ⟨p, [], 0, 0⟩
      (by intro u hu; simp at hu) (by simp)
    obtain ⟨s1, s2, s3, s4⟩ := hbatch
    obtain ⟨d, hd1, hd2⟩ := s4
    have hdall : (process_job_batch env maxApps p b).attempted = d := by
      simpa [process_job_batch] using hd1
    have hAvoid : ∀ u ∈ p, u ∉ (process_job_batch env maxApps p b).attempted := by
      intro u hu hc
      rw [hdall] at hc
      exact hd2 u hc hu
    obtain ⟨i1, i2, i3, i4⟩ := ih (process_job_batch env maxApps p b).processed
    have hsub : ∀ u ∈ (process_job_batch env maxApps p b).attempted,
        u ∈ (process_job_batch env maxApps p b).processed := s2
    have hpin : ∀ u ∈ p, u ∈ (process_job_batch env maxApps p b).processed := s1
    simp only [runBatches]
    refine ⟨?_, ?_, ?_, ?_⟩
    · intro u hu hc
      rcases List.mem_append.1 hc with h1 | h2
      · exact hAvoid u hu h1
      · exact i1 u (hpin u hu) h2
    · rw [List.nodup_append]
      refine ⟨s3, i2, ?_⟩
      intro u hu hv
      exact i1 u (hsub u hu) hv
    · intro u hu
      exact i3 u (hpin u hu)
    · intro u hu
      rcases List.mem_append.1 hu with h1 | h2
      · exact i3 u (hsub u h1)
      · exact i4 u h2

/- ===================== Claim C4 ===================== -/

/-- C4.  Across a whole run, a URL contained in the processed set is
never attempted again: each batch iteration checks membership before
processing and marks the URL after the attempt, so the attempts of a
run avoid the initial processed set and contain no URL twice. -/
theorem C4_no_reprocessing :
    ∀ (env : String → JobOutcome) (maxApps : Nat) (batches : List (List String))
      (p0 : List String),
      (∀ u ∈ p0, u ∉ (runBatches env maxApps batches p0).2)
      ∧ (runBatches env maxApps batches p0).2.Nodup :=
  fun env maxApps batches p0 =>
    ⟨(runBatches_spec env maxApps batches p0).1,
      (runBatches_spec env maxApps batches p0).2.1⟩

/-- The job outcomes of the C4 witness: every processed job fails. -/
def c4Env : String → JobOutcome := fun _ => JobOutcome.ok false

/-- Witness for C4: a previously processed URL is not attempted again
even though it reappears in a batch, and the attempts of the run are
duplicate-free. -/
theorem C4_no_reprocessing_witness :
    ("https://x.example/job-listings-1" ∉
      (runBatches c4Env 500
        [["https://x.example/job-listings-1", "https://x.example/job-listings-2"],
         ["https://x.example/job-listings-2", "https://x.example/job-listings-3"]]
        ["https://x.example/job-listings-1"]).2)
    ∧ (runBatches c4Env 500
        [["https://x.example/job-listings-1", "https://x.example/job-listings-2"],
         ["https://x.example/job-listings-2", "https://x.example/job-listings-3"]]
        ["https://x.example/job-listings-1"]).2.Nodup := by
  have h := C4_no_reprocessing c4Env 500
    [["https://x.example/job-listings-1", "https://x.example/job-listings-2"],
     ["https://x.example/job-listings-2", "https://x.example/job-listings-3"]]
    ["https://x.example/job-listings-1"]
  exact ⟨h.1 "https://x.example/job-listings-1" (by decide), h.2⟩

/- ===================== Lemmas about loop detection ===================== -/

/-- Recording a nonempty fetch onto a window that ends in k copies of
its fingerprint (k at most 4) yields a window ending in k plus one
copies: the front pop of the five-entry cap never reaches the trailing
copies. -/
theorem record_step {links : List String} (hl : links ≠ [])
    (w Z : List (List String)) (k : Nat)
    (hw : w = Z ++ List.replicate k (fingerprintOf links)) (hk : k ≤ 4) :
    ∃ Z2, recordFingerprint w links = Z2 ++ List.replicate (k + 1) (fingerprintOf links) := by
  unfold recordFingerprint
  rw [if_neg hl]
  split
  · rename_i hlen
    have hZ : Z ≠ [] := by
      intro hze
      subst hze
      simp [hw] at hlen
      omega
    cases Z with
    | nil => exact absurd rfl hZ
    | cons z zs =>
      refine ⟨zs, ?_⟩
      rw [hw]
      simp [List.replicate_succ' k (fingerprintOf links), List.append_assoc]
  · refine ⟨Z, ?_⟩
    rw [hw]
    simp [List.replicate_succ' k (fingerprintOf links), List.append_assoc]

/-- After three recordings of the same nonempty fetch, the window ends
in three copies of its fingerprint. -/
theorem record_three {links : List String} (hl : links ≠ []) (w : List (List String)) :
    ∃ Z, recordFingerprint (recordFingerprint (recordFingerprint w links) links) links
      = Z ++ List.replicate 3 (fingerprintOf links) := by
  obtain ⟨Z1, h1⟩ := record_step hl w w 0 (by simp) (by omega)
  obtain ⟨Z2, h2⟩ := record_step hl _ Z1 1 h1 (by omega)
  obtain ⟨Z3, h3⟩ := record_step hl _ Z2 2 h2 (by omega)
  exact ⟨Z3, h3⟩

/-- A window ending in three copies of a fingerprint is reported
stuck. -/
theorem stuck_of_three (Z : List (List String)) (fp : List String) :
    is_search_stuck 3 (Z ++ List.replicate 3 fp) = true := by
  unfold is_search_stuck
  have hlen : ¬ (Z ++ List.replicate 3 fp).length < 3 := by
    simp
  rw [if_neg hlen]
  have hlast : (Z ++ List.replicate 3 fp).getLast? = some fp := by
    have : Z ++ List.replicate 3 fp = (Z ++ [fp, fp]) ++ [fp] := by
      simp [List.replicate]
    rw [this]
    exact List.getLast?_concat _
  rw [hlast]
  have hcount : 3 ≤ (Z ++ List.replicate 3 fp).count fp := by
    rw [List.count_append, List.count_replicate_self]
    omega
  simp [hcount]

/-- A window whose last entry occurs fewer than three times is not
reported stuck. -/
theorem not_stuck_of_count (w : List (List String)) (fp : List String)
    (hlast : w.getLast? = some fp) (hcount : w.count fp < 3) :
    is_search_stuck 3 w = false := by
  unfold is_search_stuck
  split
  · rfl
  · rw [hlast]
    simpa using hcount

/-- Recording a nonempty fetch puts its fingerprint last in the
window. -/
theorem record_last {links : List String} (hl : links ≠ []) (w : List (List String)) :
    (recordFingerprint w links).getLast? = some (fingerprintOf links) := by
  obtain ⟨Z, h⟩ := record_step hl w w 0 (by simp) (by omega)
  rw [h]
  have : Z ++ List.replicate 1 (fingerprintOf links) = Z ++ [fingerprintOf links] := by
    simp [List.replicate]
  rw [this]
  exact List.getLast?_concat _

/- ===================== Claim C9 ===================== -/

/-- C9.  Three consecutive fetches with identical sorted-URL
fingerprints make is_search_stuck at threshold three return True, and
a fetch whose fingerprint has not yet accumulated three occurrences in
the window arriving last makes it return False. -/
theorem C9_stuck_detection :
    ∀ (w : List (List String)) (links : List String), links ≠ [] →
      is_search_stuck 3
        (recordFingerprint (recordFingerprint (recordFingerprint w links) links) links) = true
      ∧ ((recordFingerprint w links).count (fingerprintOf links) < 3 →
          is_search_stuck 3 (recordFingerprint w links) = false) := by
  intro w links hl
  constructor
  · obtain ⟨Z, h⟩ := record_three hl w
    rw [h]
    exact stuck_of_three Z (fingerprintOf links)
  · intro hcount
    exact not_stuck_of_count _ _ (record_last hl w) hcount

/-- Witness for C9 at the empty window and a one-link fetch. -/
theorem C9_stuck_detection_witness :
    is_search_stuck 3
      (recordFingerprint (recordFingerprint (recordFingerprint []
        ["https://x.example/job-listings-1"]) ["https://x.example/job-listings-1"])
        ["https://x.example/job-listings-1"]) = true
    ∧ is_search_stuck 3 (recordFingerprint [] ["https://x.example/job-listings-1"]) = false := by
  have h := C9_stuck_detection [] ["https://x.example/job-listings-1"] (by decide)
  exact ⟨h.1, h.2 (by decide)⟩

/- ===================== Claim C8 ===================== -/

/-- The page of the C8 counterexample: three options, a model reply of
0, and a save control that is never clickable. -/
def c8Env : RadioEnv :=
  { containersPresent := true,
    questionFound := some "Which shift do you prefer?",
    options := [("Day", "day"), ("Night", "night"), ("Flexible", "flex")],
    oracle := fun _ => Except.ok "0",
    saveButtonOk := false,
    successShown := false }

/-- C8 counterexample.  The reply 0 lies outside the 1-based option
numbering, so by the claim the handler should abort without clicking
any control; instead Python indexing maps option index 0 minus 1 to
the last list position and the handler clicks the third radio input
(position 2) before failing at the save control. -/
theorem C8_counterexample :
    handle_radio_buttons c8Env = ⟨false, [], some 2⟩ := by
  rfl

/-- C8 amended.  A non-numeric reply, or an integer whose zero-based
index falls outside the Python index range, is a fatal error for the
attempt: the exception is caught and the handler returns failure with
no control clicked and nothing logged.  A reply of 0 or a negative
integer within the negative range wraps around Python-style and
clicks the option at the wrapped position; in every case the handler
returns a value instead of raising. -/
theorem C8_amended_radio_parsing :
    ∀ (e : RadioEnv) (q : String),
      e.containersPresent = true → e.questionFound = some q →
      (pyInt (radioReply e q) = none →
        handle_radio_buttons e = ⟨false, [], none⟩)
      ∧ (∀ k : Int, pyInt (radioReply e q) = some k →
          pyIdx e.options.length (k - 1) = none →
          handle_radio_buttons e = ⟨false, [], none⟩)
      ∧ (∀ (k : Int) (j : Nat), pyInt (radioReply e q) = some k →
          pyIdx e.options.length (k - 1) = some j →
          (handle_radio_buttons e).clickedIndex = some j) := by
  intro e q hc hq
  refine ⟨?_, ?_, ?_⟩
  · intro hk
    simp [handle_radio_buttons, hc, hq, hk]
  · intro k hk hj
    simp [handle_radio_buttons, hc, hq, hk, hj]
  · intro k j hk hj
    simp only [handle_radio_buttons, hc, hq, hk, hj, Bool.not_true, Bool.false_eq_true,
      if_false]
    split
    · rfl
    · split
      · rfl
      · rfl

/-- The page of the C8 witness: one option and a non-numeric model
reply. -/
def c8wEnv : RadioEnv :=
  { containersPresent := true,
    questionFound := some "Pick one",
    options := [("A", "a")],
    oracle := fun _ => Except.ok "not a number",
    saveButtonOk := false,
    successShown := false }

/-- Witness for the amended C8: the non-numeric reply makes the
handler return failure with no click and no log. -/
theorem C8_amended_radio_parsing_witness :
    handle_radio_buttons c8wEnv = ⟨false, [], none⟩ :=
  (C8_amended_radio_parsing c8wEnv "Pick one" rfl rfl).1 (by rfl)

/- ===================== Lemmas about job-log records ===================== -/

/-- The well-formedness the spec requires of a job-log record: a status
from the fixed set, and an error-reason tag on every failed record. -/
def GoodLog (r : JobLog) : Prop :=
  r.status ∈ (["success", "failed", "skipped", "external_site_matched",
    "external_site_visited"] : List String)
  ∧ (r.status = "failed" → r.errorReason ≠ none)

/-- All records of a list are well-formed. -/
def GoodLogs (l : List JobLog) : Prop :=
  ∀ r ∈ l, GoodLog r

/-- Introduction rule for GoodLog on a literal record. -/
theorem goodLog_mk (st : String) (er : Option String) (m : Option String)
    (qa : Option Nat) (sk : Option String)
    (h1 : st ∈ (["success", "failed", "skipped", "external_site_matched",
      "external_site_visited"] : List String))
    (h2 : st = "failed" → er ≠ none) :
    GoodLog ⟨st, er, m, qa, sk⟩ :=
  ⟨h1, h2⟩

/-- Well-formedness of an appended pair of lists. -/
theorem goodLogs_append {l1 l2 : List JobLog} (h1 : GoodLogs l1) (h2 : GoodLogs l2) :
    GoodLogs (l1 ++ l2) := by
  intro r hr
  rcases List.mem_append.1 hr with h | h
  · exact h1 r h
  · exact h2 r h

/-- The empty log list is well-formed. -/
theorem goodLogs_nil : GoodLogs [] := by
  intro r hr
  simp at hr

/-- Appending one well-formed record via save_job_log. -/
theorem goodLogs_save {l : List JobLog} {r : JobLog} (h1 : GoodLogs l) (h2 : GoodLog r) :
    GoodLogs (save_job_log l r) := by
  intro s hs
  unfold save_job_log at hs
  rcases List.mem_append.1 hs with h | h
  · exact h1 s h
  · simp at h
    subst h
    exact h2

/-- A singleton well-formed record list. -/
theorem goodLogs_single {r : JobLog} (h : GoodLog r) : GoodLogs [r] := by
  intro s hs
  simp at hs
  subst hs
  exact h

/-- Every record the radio handler writes is well-formed. -/
theorem radio_goodlogs (e : RadioEnv) : GoodLogs (handle_radio_buttons e).logs := by
  unfold handle_radio_buttons
  repeat' split
  all_goals first
    | exact goodLogs_nil
    | exact goodLogs_single (goodLog_mk _ _ _ _ _ (by decide) (by decide))

/-- The records a round step carries. -/
def stepLogs : RoundStep → List JobLog
  | RoundStep.ret _ nl _ => nl
  | RoundStep.leave nl _ => nl
  | RoundStep.next nl _ => nl

/-- Every record the answer phase of a text round writes is
well-formed. -/
theorem textAnswerPhase_goodlogs (cfg : Config) (r : TextRound) (c : Nat) (t : String) :
    GoodLogs (stepLogs (textAnswerPhase cfg r c t)) := by
  unfold textAnswerPhase
  repeat' split
  all_goals first
    | exact goodLogs_nil
    | exact goodLogs_single (goodLog_mk _ _ _ _ _ (by decide) (by decide))

/-- Every record one text round writes is well-formed. -/
theorem textRoundStep_goodlogs (cfg : Config) (r : TextRound) (c : Nat) :
    GoodLogs (stepLogs (textRoundStep cfg r c)) := by
  unfold textRoundStep
  repeat' split
  all_goals first
    | exact goodLogs_nil
    | exact textAnswerPhase_goodlogs cfg r c _

/-- The post-loop code of the text handler keeps the log list
well-formed. -/
theorem textFinish_goodlogs (count answered : Nat) (logs : List JobLog)
    (h : GoodLogs logs) : GoodLogs (textFinish count answered logs).logs := by
  unfold textFinish
  split
  · exact goodLogs_save h (goodLog_mk _ _ _ _ _ (by decide) (by decide))
  · exact h

/-- The text-handler loop keeps the log list well-formed. -/
theorem textLoop_goodlogs (cfg : Config) (env : Nat → TextRound) :
    ∀ (fuel count answered : Nat) (logs : List JobLog),
      GoodLogs logs → GoodLogs (textLoop cfg env fuel count answered logs).logs := by
  intro fuel
  induction fuel with
  | zero =>
    intro count answered logs hlogs
    exact textFinish_goodlogs count answered logs hlogs
  | succ fuel ih =>
    intro count answered logs hlogs
    simp only [textLoop]
    split
    · rename_i ok nl a heq
      have hnl : GoodLogs nl := by
        have hh := textRoundStep_goodlogs cfg (env (count + 1)) (count + 1)
        rw [heq] at hh
        exact hh
      exact goodLogs_append hlogs hnl
    · rename_i nl a heq
      have hnl : GoodLogs nl := by
        have hh := textRoundStep_goodlogs cfg (env (count + 1)) (count + 1)
        rw [heq] at hh
        exact hh
      exact textFinish_goodlogs _ _ _ (goodLogs_append hlogs hnl)
    · rename_i nl a heq
      have hnl : GoodLogs nl := by
        have hh := textRoundStep_goodlogs cfg (env (count + 1)) (count + 1)
        rw [heq] at hh
        exact hh
      exact ih _ _ _ (goodLogs_append hlogs hnl)

/-- Every record the text handler writes is well-formed. -/
theorem text_goodlogs (cfg : Config) (env : Nat → TextRound) :
    GoodLogs (handle_text_input cfg env).logs :=
  textLoop_goodlogs cfg env 15 0 0 [] goodLogs_nil

/-- Every record the success scan writes is well-formed. -/
theorem succ_goodlogs (e : SuccEnv) : GoodLogs (check_for_success_indicators e).2 := by
  unfold check_for_success_indicators
  repeat' split
  all_goals first
    | exact goodLogs_nil
    | exact goodLogs_single (goodLog_mk _ _ _ _ _ (by decide) (by decide))

/-- Every record the external-site tail writes is well-formed. -/
theorem extSiteProceed_goodlogs (cfg : Config) (e : ExtEnv) :
    GoodLogs (extSiteProceed cfg e).2 := by
  unfold extSiteProceed
  simp only []
  split
  · intro r hr
    simp at hr
    rcases hr with h | h
    · subst h
      exact goodLog_mk _ _ _ _ _ (by decide) (by decide)
    · subst h
      exact goodLog_mk _ _ _ _ _ (by decide) (by decide)
  · exact goodLogs_single (goodLog_mk _ _ _ _ _ (by decide) (by decide))

/-- Every record the external-site branch writes is well-formed. -/
theorem ext_goodlogs (cfg : Config) (e : ExtEnv) :
    GoodLogs (handle_company_site_application cfg e).2 := by
  unfold handle_company_site_application
  simp only []
  repeat' split
  all_goals first
    | exact goodLogs_single (goodLog_mk _ _ _ _ _ (by decide) (by decide))
    | exact extSiteProceed_goodlogs cfg e

/-- The post-loop fallback of process_job keeps the log list
well-formed. -/
theorem finishLoop_goodlogs (attempts errors answered : Nat) (logs : List JobLog)
    (h : GoodLogs logs) : GoodLogs (finishLoop attempts errors answered logs).logs := by
  unfold finishLoop
  split
  · exact goodLogs_save h (goodLog_mk _ _ _ _ _ (by decide) (by decide))
  · exact h

set_option maxHeartbeats 1000000 in
/-- The question loop of process_job keeps the log list well-formed. -/
theorem questionLoop_goodlogs (cfg : Config) (env : JobEnv) :
    ∀ (fuel attempts errors answered : Nat) (logs : List JobLog),
      GoodLogs logs → GoodLogs (questionLoop cfg env fuel attempts errors answered logs).logs := by
  intro fuel
  induction fuel with
  | zero =>
    intro attempts errors answered logs hlogs
    exact finishLoop_goodlogs attempts errors answered logs hlogs
  | succ fuel ih =>
    intro attempts errors answered logs hlogs
    simp only [questionLoop]
    have hr := radio_goodlogs (env.iters (attempts + 1)).radio
    have ht := text_goodlogs cfg (env.iters (attempts + 1)).text
    have hs := succ_goodlogs (env.iters (attempts + 1)).succ
    have hall := goodLogs_append (goodLogs_append (goodLogs_append hlogs hr) ht) hs
    split
    · exact goodLogs_append hlogs hr
    · split
      · exact goodLogs_append (goodLogs_append hlogs hr) ht
      · split
        · exact hall
        · split
          · exact goodLogs_save hall (goodLog_mk _ _ _ _ _ (by decide) (by decide))
          · split
            · split
              · exact goodLogs_save hall (goodLog_mk _ _ _ _ _ (by decide) (by decide))
              · exact finishLoop_goodlogs _ _ _ _ hall
            · exact ih _ _ _ _ hall

/- ===================== Claim C3 ===================== -/

/-- The configuration of the C3 theorems. -/
def c3Config : Config := {}

/-- The classifier oracle of the C3 counterexample: the model says the
job does not match. -/
def c3Oracle : Nat → Except String String := fun _ => Except.ok "No, poor skills overlap."

/-- The page of the C3 counterexample: an ordinary job page whose
classification comes back negative. -/
def c3Env : JobEnv := { oracle := c3Oracle }

/-- C3 counterexample.  A terminal transition that writes no job-log
record: when the preference decision is negative, process_job returns
False immediately (job_processor.py line 1190) and the applications
log receives nothing; only the separate preference-match log is
written.  So not every terminal transition writes exactly one job-log
record. -/
theorem C3_counterexample :
    (process_job c3Config c3Env).logs = [] ∧ (process_job c3Config c3Env).ok = false := by
  constructor <;> rfl

/-- C3 amended.  Every job-log record the flow writes carries a status
in the fixed set (success, failed, skipped, external_site_matched,
external_site_visited) and every failed record carries a
machine-readable error-reason tag; but terminal transitions do not
write exactly one record each: the preference-mismatch and
ambiguous-failure returns of process_job write none, and the
external-site click-through path writes two (matched, then
visited). -/
theorem C3_amended_log_wellformedness :
    ∀ (cfg : Config) (env : JobEnv) (r : JobLog),
      r ∈ (process_job cfg env).logs → GoodLog r := by
  intro cfg env r hr
  have h : GoodLogs (process_job cfg env).logs := by
    simp only [process_job]
    split
    · exact ext_goodlogs cfg env.ext
    · split
      · exact goodLogs_single (goodLog_mk _ _ _ _ _ (by decide) (by decide))
      · split
        · exact goodLogs_single (goodLog_mk _ _ _ _ _ (by decide) (by decide))
        · split
          · exact goodLogs_nil
          · split
            · split
              · exact goodLogs_nil
              · exact questionLoop_goodlogs cfg env 10 0 _ 0 [] goodLogs_nil
            · split
              · exact goodLogs_single (goodLog_mk _ _ _ _ _ (by decide) (by decide))
              · exact questionLoop_goodlogs cfg env 10 0 _ 0 [] goodLogs_nil
  exact h r hr

/-- The page of the C3 witness: an HTML error page, which produces one
failed record with the html_response reason. -/
def c3wEnv : JobEnv := { htmlError := true }

/-- Witness for the amended C3 at the HTML-error record. -/
theorem C3_amended_log_wellformedness_witness :
    GoodLog ⟨"failed", some "html_response", none, none, none⟩ :=
  C3_amended_log_wellformedness c3Config c3wEnv
    ⟨"failed", some "html_response", none, none, none⟩ (by decide)

/- ===================== Claim C7 ===================== -/

/-- The classifier oracle of the C7 counterexample: the job matches. -/
def c7Oracle : Nat → Except String String := fun _ => Except.ok "Yes, good match."

/-- The conversational oracle of the C7 counterexample. -/
def c7AnswerOracle : Nat → Except String String := fun _ => Except.ok "Immediately"

/-- Round one of the C7 counterexample: a question is found, answered
and submitted, but no success indicator appears. -/
def c7Round1 : TextRound :=
  { chatListFound := true,
    liNonEmpty := true,
    scanText := some "Are you willing to relocate to Pune?",
    oracle := c7AnswerOracle,
    inputFound := true }

/-- Round two of the C7 counterexample: the chat list is present but
holds no li elements, so the handler returns False. -/
def c7Round2 : TextRound := { chatListFound := true, liNonEmpty := false }

/-- The single question-loop iteration of the C7 counterexample: the
radio handler finds nothing, the text handler answers one question and
then fails, no success indicator or continuation element exists. -/
def c7Iter : IterEnv :=
  { text := fun n => if n = 1 then c7Round1 else c7Round2 }

/-- The page of the C7 counterexample. -/
def c7Env : JobEnv := { oracle := c7Oracle, iters := fun _ => c7Iter }

/-- C7 counterexample.  A run in which the question loop exits because
no further interactive elements are found (the continuation scan is
empty on the first attempt, well before the ten-attempt bound) after
one question was answered without any error, yet process_job returns
failure with no job-log record at all: the probable_success fallback
requires more than three loop attempts, not one answered question. -/
theorem C7_counterexample :
    process_job c3Config c7Env = ⟨false, [], 1, 0, 1⟩ := by
  rfl

/-- C7 amended.  When the question loop of process_job ends without an
explicit success indicator (including the exit taken when no further
interactive elements are found), the job is reported as Success with
method probable_success exactly when more than three outer attempts
were made and the error count is at most one, regardless of how many
questions were answered; otherwise process_job returns failure and
writes no job-log record at that point. -/
theorem C7_amended_probable_success :
    ∀ (attempts errors answered : Nat) (logs : List JobLog),
      (errors ≤ 1 ∧ attempts > 3 →
        finishLoop attempts errors answered logs =
          ⟨true, save_job_log logs ⟨"success", none, some "probable_success", none, none⟩,
            attempts, errors, answered⟩)
      ∧ (¬(errors ≤ 1 ∧ attempts > 3) →
          finishLoop attempts errors answered logs =
            ⟨false, logs, attempts, errors, answered⟩) := by
  intro a e ans logs
  constructor
  · intro h
    unfold finishLoop
    rw [if_pos h]
  · intro h
    unfold finishLoop
    rw [if_neg h]

/-- Witness for the amended C7 at two concrete loop exits. -/
theorem C7_amended_probable_success_witness :
    finishLoop 4 0 2 [] =
      ⟨true, save_job_log [] ⟨"success", none, some "probable_success", none, none⟩, 4, 0, 2⟩
    ∧ finishLoop 1 0 1 [] = ⟨false, [], 1, 0, 1⟩ :=
  ⟨(C7_amended_probable_success 4 0 2 []).1 (by decide),
    (C7_amended_probable_success 1 0 1 []).2 (by decide)⟩
